import Mathlib

/-!
Verification development for the arena-game repository (pygame client,
websocket relay server).  The Python source is embedded shallowly:

* pygame `Vector2` values become `Vec2` (rational components; the float
  arithmetic of the game on the quantities the claims mention is exact at the
  inputs considered, and the irrational primitives `normalize`, `length`
  and `from_polar` are threaded as explicit function parameters);
* pygame `Rect` values become `Rect` (integer coordinates, as in pygame;
  `move_ip` truncates a float displacement toward zero);
* wall-clock readings (`time.time() * 1000`, `pg.time.get_ticks()`) become
  an explicit `now : ℚ` argument, one reading per call;
* Python dicts become association lists with insertion-order semantics;
* `random.randint`/`random.choice` draws become explicit arguments, with
  the draw ranges stated as hypotheses where a theorem needs them.
-/

namespace Game

/-- 2D vector with rational components, modelling pygame `Vector2`. -/
structure Vec2 where
  x : ℚ
  y : ℚ
deriving DecidableEq, Repr

def Vec2.add (a b : Vec2) : Vec2 := ⟨a.x + b.x, a.y + b.y⟩

def Vec2.sub (a b : Vec2) : Vec2 := ⟨a.x - b.x, a.y - b.y⟩

/-- Scalar multiple `q * v`, modelling `Vector2.__mul__` with a number. -/
def Vec2.scale (q : ℚ) (v : Vec2) : Vec2 := ⟨q * v.x, q * v.y⟩

/-- Squared Euclidean magnitude.  The source compares `Vector2.magnitude()`
(a real square root) against nonnegative thresholds; the embedding compares
squares, which is equivalent for nonnegative thresholds. -/
def Vec2.magSq (v : Vec2) : ℚ := v.x * v.x + v.y * v.y

/-- pygame `Vector2.__bool__`: a vector is truthy iff it is nonzero. -/
def Vec2.isTruthy (v : Vec2) : Bool := !(v == Vec2.mk 0 0)

def Vec2.ofPair (c : ℤ × ℤ) : Vec2 := ⟨(c.1 : ℚ), (c.2 : ℚ)⟩

/-- Truncation toward zero, as the C float-to-int conversion used by
pygame when a `Rect` is moved by a float displacement. -/
def truncZ (q : ℚ) : ℤ := if 0 ≤ q then ⌊q⌋ else ⌈q⌉

/-- pygame `Rect`: integer topleft corner plus integer size. -/
structure Rect where
  x : ℤ
  y : ℤ
  w : ℤ
  h : ℤ
deriving DecidableEq, Repr

def Rect.left (r : Rect) : ℤ := r.x

def Rect.right (r : Rect) : ℤ := r.x + r.w

def Rect.top (r : Rect) : ℤ := r.y

def Rect.bottom (r : Rect) : ℤ := r.y + r.h

/-- pygame `Rect.center` (reads `x + w // 2`, `y + h // 2`; all widths the
game builds are nonnegative, so `/` on `ℤ` matches the C shift). -/
def Rect.center (r : Rect) : ℤ × ℤ := (r.x + r.w / 2, r.y + r.h / 2)

/-- pygame `Rect.center = c` (sets `x = cx - w // 2`, `y = cy - h // 2`). -/
def Rect.setCenter (r : Rect) (c : ℤ × ℤ) : Rect :=
  { r with x := c.1 - r.w / 2, y := c.2 - r.h / 2 }

/-- pygame `Rect.move_ip` with a float displacement: each component is
truncated toward zero before being added. -/
def Rect.moveTrunc (r : Rect) (v : Vec2) : Rect :=
  { r with x := r.x + truncZ v.x, y := r.y + truncZ v.y }

/-- pygame `Rect.colliderect` (strict overlap on both axes). -/
def Rect.collide (a b : Rect) : Bool :=
  decide (a.x < b.x + b.w) && decide (a.y < b.y + b.h) &&
  decide (b.x < a.x + a.w) && decide (b.y < a.y + a.h)

/-- pygame `Rect.collidepoint` (left/top edges inclusive, right/bottom
edges exclusive). -/
def Rect.collidepoint (r : Rect) (p : ℤ × ℤ) : Bool :=
  decide (r.x ≤ p.1) && decide (p.1 < r.x + r.w) &&
  decide (r.y ≤ p.2) && decide (p.2 < r.y + r.h)

/-- RGBA color, modelling `pygame.Color`. -/
structure Color where
  r : ℕ
  g : ℕ
  b : ℕ
  a : ℕ
deriving DecidableEq, Repr

def colorWhite : Color := ⟨255, 255, 255, 255⟩

def colorRed : Color := ⟨255, 0, 0, 255⟩

/-! ## particle.py -/

/-- `particle.Particle`: position (`rect`), direction (`velocity`), color,
spawn time and lifetime, plus the `has_expired` flag. -/
structure Particle where
  last_pos : ℤ × ℤ
  rect : Rect
  velocity : Vec2
  color : Color
  has_expired : Bool
  spawn_time : ℚ
  lifetime : ℚ
deriving DecidableEq, Repr

/-- `Particle.__init__`: the stored rect is a fresh 10x10 rect centered on
the center of the argument rect; a `None` spawn time is replaced by the current
wall clock (`now`). -/
def Particle.init (rect : Rect) (velocity : Vec2) (color : Color)
    (lifetime : ℚ) (spawn_time : Option ℚ) (now : ℚ) : Particle :=
  { last_pos := rect.center
    rect := (Rect.mk 0 0 10 10).setCenter rect.center
    velocity := velocity
    color := color
    has_expired := false
    spawn_time := spawn_time.getD now
    lifetime := lifetime }

/-- `Particle.update`: expire when past `spawn_time + lifetime`, otherwise
integrate the velocity over `dt`. -/
def Particle.update (p : Particle) (dt : ℚ) (now : ℚ) : Particle :=
  if p.spawn_time + p.lifetime < now then
    { p with has_expired := true }
  else
    { p with last_pos := p.rect.center
             rect := p.rect.moveTrunc (Vec2.scale dt p.velocity) }

/-- The dictionary produced by `Particle.serialize` /
`Explosion.serialize`; the four trailing fields are present only for
explosions. -/
structure SerializedParticle where
  ptype : String
  position : ℤ × ℤ
  velocity : Vec2
  color : Color
  spawn_time : ℚ
  lifetime : ℚ
  windup : Option ℚ
  radius : Option ℤ
  explosion_speed : Option ℚ
  decay : Option ℚ
deriving DecidableEq, Repr

/-- `Particle.serialize`. -/
def Particle.serialize (p : Particle) : SerializedParticle :=
  { ptype := "particle"
    position := p.rect.center
    velocity := p.velocity
    color := p.color
    spawn_time := p.spawn_time
    lifetime := p.lifetime
    windup := none
    radius := none
    explosion_speed := none
    decay := none }

/-- `particle.Explosion`: a particle with wind-up, trigger flag, radius,
propagation speed, decay factor and a child particle list. -/
structure Explosion where
  last_pos : ℤ × ℤ
  rect : Rect
  velocity : Vec2
  color : Color
  has_expired : Bool
  spawn_time : ℚ
  lifetime : ℚ
  windup : ℚ
  inner_scale : ℚ
  radius : ℤ
  sub_particles : List Particle
  explosion_speed : ℚ
  triggered : Bool
  decay : ℚ
deriving DecidableEq, Repr

/-- `Explosion.__init__`: the base constructor runs first, then the rect is
resized to `radius * 2` square (keeping the topleft, as pygame width/height
assignment does) and re-centered on the center of the argument rect. -/
def Explosion.init (rect : Rect) (velocity : Vec2) (color : Color)
    (lifetime : ℚ) (spawn_time : Option ℚ) (now : ℚ)
    (windup : ℚ) (radius : ℤ) (explosion_speed : ℚ) (decay : ℚ) : Explosion :=
  let base := Particle.init rect velocity color lifetime spawn_time now
  let r := { base.rect with w := radius * 2, h := radius * 2 }
  { last_pos := base.last_pos
    rect := r.setCenter rect.center
    velocity := base.velocity
    color := base.color
    has_expired := base.has_expired
    spawn_time := base.spawn_time
    lifetime := base.lifetime
    windup := windup
    inner_scale := 0
    radius := radius
    sub_particles := []
    explosion_speed := explosion_speed
    triggered := false
    decay := decay }

/-- `Explosion.serialize`: the base serialization with the extra explosion
fields and the type tag overridden. -/
def Explosion.serialize (e : Explosion) : SerializedParticle :=
  { ptype := "explosion"
    position := e.rect.center
    velocity := e.velocity
    color := e.color
    spawn_time := e.spawn_time
    lifetime := e.lifetime
    windup := some e.windup
    radius := some e.radius
    explosion_speed := some e.explosion_speed
    decay := some e.decay }

/-- The particle-typed fields of an explosion, for running the inherited
`Particle.update` on them. -/
def Explosion.particleFields (e : Explosion) : Particle :=
  ⟨e.last_pos, e.rect, e.velocity, e.color, e.has_expired, e.spawn_time, e.lifetime⟩

def Explosion.withParticleFields (e : Explosion) (p : Particle) : Explosion :=
  { e with last_pos := p.last_pos, rect := p.rect, velocity := p.velocity,
           color := p.color, has_expired := p.has_expired,
           spawn_time := p.spawn_time, lifetime := p.lifetime }

/-- The body of the per-child loop in `Explosion.update`: decay the child
velocity while its magnitude exceeds a quarter of the propagation speed
(the source compares `Vector2.magnitude()` with `explosion_speed / 4`; for
the nonnegative propagation speeds the game uses this is the squared
comparison below), then run the child update. -/
def Explosion.stepChild (e : Explosion) (dt : ℚ) (now : ℚ) (p : Particle) : Particle :=
  let p :=
    if (e.explosion_speed / 4) * (e.explosion_speed / 4) < p.velocity.magSq then
      { p with velocity := Vec2.scale e.decay p.velocity }
    else p
  p.update dt now

/-- The 360 child particles generated on the first triggered tick: one per
whole degree, colored red, living for the remaining lifetime.  `rnd x`
models `randint(explosion_speed / 4, explosion_speed * 3)` for degree `x`,
and `dir x` models the unit direction `Vector2.from_polar((1, x))`, so the
child velocity is `from_polar((rnd x, x))`. -/
def Explosion.genChildren (e : Explosion) (now : ℚ)
    (rnd : ℕ → ℚ) (dir : ℕ → Vec2) : List Particle :=
  (List.range 360).map fun x =>
    Particle.init e.rect (Vec2.scale (rnd x) (dir x)) colorRed
      (e.lifetime - e.windup) none now

/-- `Explosion.update`: the inherited update runs first; past the wind-up
the explosion is triggered, generating the children if the child list is
empty, then stepping every child and pruning the expired ones; before the
wind-up the trigger flag is cleared and the draw scale grows linearly. -/
def Explosion.update (e : Explosion) (dt : ℚ) (now : ℚ)
    (rnd : ℕ → ℚ) (dir : ℕ → Vec2) : Explosion :=
  let e := e.withParticleFields (e.particleFields.update dt now)
  if e.spawn_time + e.windup < now then
    let e := { e with triggered := true }
    let e :=
      if e.sub_particles = [] then
        { e with inner_scale := 0, sub_particles := e.genChildren now rnd dir }
      else e
    let subs := e.sub_particles.map (e.stepChild dt now)
    { e with sub_particles := subs.filter (fun p => !p.has_expired) }
  else
    { e with triggered := false, inner_scale := (now - e.spawn_time) / e.windup }

/-! ## gamestate.py -/

/-- The reconstruction of a received super-attack record performed by
`Gamestate.update_net`: a fresh 10x10 rect is centered on the serialized
position and the matching constructor is called with the serialized
fields; an unknown type tag falls back to a plain particle.  The
reconciliation step `p.update(...)` that follows in the source is separate
from the construction.  For the explosion tag the source indexes the four
extra fields directly (`KeyError` when absent), modelled as `none`. -/
def Gamestate.reconstructSuper (s : SerializedParticle) (now : ℚ) :
    Option (Particle ⊕ Explosion) :=
  let r := (Rect.mk 0 0 10 10).setCenter s.position
  if s.ptype = "particle" then
    some (Sum.inl (Particle.init r s.velocity s.color s.lifetime (some s.spawn_time) now))
  else if s.ptype = "explosion" then
    match s.windup, s.radius, s.explosion_speed, s.decay with
    | some w, some rad, some es, some dec =>
        some (Sum.inr (Explosion.init r s.velocity s.color s.lifetime
          (some s.spawn_time) now w rad es dec))
    | _, _, _, _ => none
  else
    some (Sum.inl (Particle.init r s.velocity s.color s.lifetime (some s.spawn_time) now))

/-! ## entity.py

Sprite, animation-frame and uuid fields are rendering/identity plumbing
the embedded operations never read; they are omitted.  The
click-to-move and attack-cooldown fields belong to `handle_input` and the
firing logic, which enter the model only through the quantified `handle`
parameter (input polling is an external collaborator). -/

/-- `entity.Enemy`. -/
structure Enemy where
  rect : Rect
  velocity : Vec2
  max_velocity : ℚ
  innertia_vector : Vec2
  innertia_scaler : ℚ
  max_hp : ℤ
  current_hp : ℤ
  behaviour : Option String
  has_been_onscreen : Bool
  power : ℤ
deriving DecidableEq, Repr

/-- `entity.Player`; `alive` models membership in the live sprite groups
(`pygame.sprite.Sprite.kill` / `alive`). -/
structure Player where
  rect : Rect
  velocity : Vec2
  max_velocity : ℚ
  innertia_vector : Vec2
  innertia_scaler : ℚ
  max_hp : ℤ
  current_hp : ℤ
  particles : List Particle
  alive : Bool
deriving DecidableEq, Repr

/-- `Entity.move_towards`: aim at the target at max speed, a no-op when
already there (`length() != 0` guard).  `unit` models the real-valued
`Vector2.normalize`. -/
def Enemy.move_towards (unit : Vec2 → Vec2) (e : Enemy) (target : Vec2) : Enemy :=
  let tv := Vec2.sub target (Vec2.ofPair e.rect.center)
  if tv = Vec2.mk 0 0 then e
  else { e with velocity := Vec2.scale e.max_velocity (unit tv) }

/-- `Entity.set_direction`: move in a given direction at max speed, a
no-op for the zero vector. -/
def Enemy.set_direction (unit : Vec2 → Vec2) (e : Enemy) (direction : Vec2) : Enemy :=
  if direction = Vec2.mk 0 0 then e
  else { e with velocity := Vec2.scale e.max_velocity (unit direction) }

/-- `Entity.gain_innertia`: replace the knockback with a direction away
from the impulse point and magnitude `length(innertia) * scaler`; a falsy
(zero) impulse vector is a no-op.  `unit` and `len` model
`Vector2.normalize_ip` and `Vector2.length`. -/
def Player.gain_innertia (unit : Vec2 → Vec2) (len : Vec2 → ℚ)
    (p : Player) (innertia : Vec2) (scaler : ℚ) : Player :=
  if innertia.isTruthy then
    { p with innertia_vector := unit (Vec2.sub (Vec2.ofPair p.rect.center) innertia),
             innertia_scaler := len innertia * scaler }
  else p

/-- pygame `Rect.contains`, as used by `Player.bounds_check`. -/
def Rect.containsRect (b a : Rect) : Bool :=
  decide (b.x ≤ a.x) && decide (b.y ≤ a.y) &&
  decide (a.x + a.w ≤ b.x + b.w) && decide (a.y + a.h ≤ b.y + b.h) &&
  decide (a.x < b.x + b.w) && decide (a.y < b.y + b.h)

/-- `Player.bounds_check`: clamp the player rect back inside the bounds
edge by edge. -/
def Player.bounds_check (p : Player) (bounds : Rect) : Player :=
  if Rect.containsRect bounds p.rect then p
  else
    let r := p.rect
    let r := if r.left < bounds.left then { r with x := bounds.left }
             else if bounds.right < r.right then { r with x := bounds.right - r.w }
             else r
    let r := if r.top < bounds.top then { r with y := bounds.top }
             else if bounds.bottom < r.bottom then { r with y := bounds.bottom - r.h }
             else r
    { p with rect := r }

/-- The movement/particle portion of `Player.update` (the inherited
`Entity.update` advances only the sprite animation frame).  When the
knockback scalar is positive the player is displaced by
`innertia_vector * innertia_scaler * dt` and the scalar decays by
`max_velocity * 8 * dt`; only otherwise is `handle` (the input handler)
consulted.  Particles are then updated and culled, and the player is
clamped to the bounds when given. -/
def Player.update (handle : Player → ℚ → Player) (p : Player)
    (bounds : Option Rect) (dt : ℚ) (now : ℚ) : Player :=
  let p :=
    if 0 < p.innertia_scaler then
      { p with rect := p.rect.moveTrunc (Vec2.scale dt (Vec2.scale p.innertia_scaler p.innertia_vector)),
               innertia_scaler := p.innertia_scaler - p.max_velocity * 8 * dt }
    else handle p dt
  let p := { p with particles := (p.particles.map (fun q => q.update dt now)).filter (fun q => !q.has_expired) }
  match bounds with
  | some b => p.bounds_check b
  | none => p

/-- `Player.update` iterated over successive ticks: fixed `dt`, clock
reading `times n` on the n-th tick. -/
def Player.iterate (handle : Player → ℚ → Player) (bounds : Option Rect)
    (dt : ℚ) (times : ℕ → ℚ) (p : Player) : ℕ → Player
  | 0 => p
  | n + 1 => Player.update handle (Player.iterate handle bounds dt times p n) bounds dt (times n)

/-! ## scene.py -/

/-- The value stored in `EnemyPattern.target`: `None`, the
`bounds.center` marker string, or a fixed point. -/
inductive TargetVal
| unset
| boundsCenterMark
| point (v : Vec2)
deriving DecidableEq, Repr

/-- Python truthiness of the target field: `None` is falsy, the marker
string is truthy (nonempty), a vector is truthy iff nonzero. -/
def TargetVal.isTruthy : TargetVal → Bool
  | TargetVal.unset => false
  | TargetVal.boundsCenterMark => true
  | TargetVal.point v => v.isTruthy

/-- Python truthiness of an optional pygame vector. -/
def optVecTruthy : Option Vec2 → Bool
  | none => false
  | some v => v.isTruthy

/-- `scene.EnemyPattern`. -/
structure EnemyPattern where
  number_of_enemies : ℤ
  enemy_behaviour : Option String
  has_leader : Bool
  distance : ℤ
  spawn_type : String
  target : TargetVal
  target_direction : Option Vec2
deriving DecidableEq, Repr

/-- `EnemyPattern.__init__`: store the fields (an unrecognized spawn type
falls back to `any`), then raise `ValueError` when `target` and
`target_direction` are both truthy — for pygame vectors that means
non-`None` and nonzero. -/
def EnemyPattern.init (number_of_enemies : ℤ) (spawn_type : String)
    (enemy_behaviour : Option String) (has_leader : Bool) (distance : ℤ)
    (target : Option Vec2) (target_direction : Option Vec2) :
    Except String EnemyPattern :=
  let pat : EnemyPattern :=
    { number_of_enemies := number_of_enemies
      enemy_behaviour := enemy_behaviour
      has_leader := has_leader
      distance := distance
      spawn_type := if ["top", "left", "right", "bottom"].contains spawn_type then spawn_type else "any"
      target := match target with
        | none => TargetVal.unset
        | some v => TargetVal.point v
      target_direction := target_direction }
  if optVecTruthy target && optVecTruthy target_direction then
    Except.error "Cannot set both target and target_direction"
  else Except.ok pat

/-- The scene together with the process-wide `Gamestate` fields the
combat resolver touches (player, active adversaries, score table),
threaded explicitly.  The score table is modelled as a total map: scene
construction seeds the key of the local player with 0. -/
structure Scene where
  bounds : Rect
  player : Player
  enemies : List Enemy
  dead_sprites : List Enemy
  score : String → ℤ
  myName : String

/-- `Scene.damage_player`: subtract the power; at zero or below the
player is killed (the hud bar update is rendering-only), otherwise the
player is knocked back from the collision center with the default scaler
1.25. -/
def Scene.damage_player (unit : Vec2 → Vec2) (len : Vec2 → ℚ)
    (s : Scene) (power : ℤ) (collision_center : ℤ × ℤ) : Scene :=
  let p := { s.player with current_hp := s.player.current_hp - power }
  if p.current_hp ≤ 0 then
    { s with player := { p with alive := false } }
  else
    { s with player := Player.gain_innertia unit len p (Vec2.ofPair collision_center) (5 / 4) }

/-- The two target groups `Scene.check_attacks` is invoked with: the
active adversary group, or the one-element list holding the player. -/
inductive Targets
| enemies
| playerOnly
deriving DecidableEq, Repr

/-- `Scene.check_attacks`: collide the attack against the targets.  Each
hit adversary loses `attack_pwr` hit points; at zero or below it is
killed (removed from the active set), the score of the local player is
credited with its maximum hit points and it joins the dead pool.  A hit
player goes through `damage_player` with the center of the attack.  The
returned flag is the `attack.has_expired = True` assignment: the attack
expires iff it hit at least one target. -/
def Scene.check_attacks (unit : Vec2 → Vec2) (len : Vec2 → ℚ)
    (s : Scene) (attackRect : Rect) (attack_pwr : ℤ) (targets : Targets) :
    Scene × Bool :=
  match targets with
  | Targets.enemies =>
      let hitList := s.enemies.filter (fun e => attackRect.collide e.rect)
      let survivors := s.enemies.filterMap (fun e =>
        if attackRect.collide e.rect then
          let eh := { e with current_hp := e.current_hp - attack_pwr }
          if eh.current_hp ≤ 0 then none else some eh
        else some e)
      let killed := hitList.filterMap (fun e =>
        let eh := { e with current_hp := e.current_hp - attack_pwr }
        if eh.current_hp ≤ 0 then some eh else none)
      let credit := (killed.map (fun e => e.max_hp)).sum
      ({ s with enemies := survivors,
                dead_sprites := s.dead_sprites ++ killed,
                score := fun n => if n = s.myName then s.score n + credit else s.score n },
       !hitList.isEmpty)
  | Targets.playerOnly =>
      if attackRect.collide s.player.rect then
        (Scene.damage_player unit len s attack_pwr attackRect.center, true)
      else (s, false)

/-- `Scene.spawn_outside` for an already-resolved edge (`any` is first
replaced by a uniform choice among the four edges).  `o1, o2` model the
two initial `randint(50, 100)` draws and `cross` the per-edge
`randint(-100, bound + 100)` draw along the unconstrained axis; a string
matching no edge would leave the initial draws untouched. -/
def Scene.spawn_outside (s : Scene) (direction : String) (o1 o2 cross : ℤ) : ℤ × ℤ :=
  if direction = "top" then (cross, -o2)
  else if direction = "left" then (-o1, cross)
  else if direction = "right" then (o1 + s.bounds.w, cross)
  else if direction = "bottom" then (cross, o2 + s.bounds.h)
  else (o1, o2)

/-- The playable bounds expanded by a margin `m` on every side. -/
def expandedRect (b : Rect) (m : ℤ) : Rect :=
  ⟨b.x - m, b.y - m, b.w + 2 * m, b.h + 2 * m⟩

/-- `Scene.spawn_target`: a marker target aims the adversary at the
bounds center, a vector target at that point; otherwise a truthy
direction is applied, and with neither the adversary seeks the player. -/
def Scene.spawn_target (unit : Vec2 → Vec2) (s : Scene) (e : Enemy)
    (pat : EnemyPattern) : Enemy :=
  match pat.target with
  | TargetVal.boundsCenterMark => Enemy.move_towards unit e (Vec2.ofPair s.bounds.center)
  | TargetVal.point v => Enemy.move_towards unit e v
  | TargetVal.unset =>
      if optVecTruthy pat.target_direction then
        Enemy.set_direction unit e (pat.target_direction.getD (Vec2.mk 0 0))
      else Enemy.move_towards unit e (Vec2.ofPair s.player.rect.center)

/-! ## server.py -/

/-- Python dict insertion: replace in place when the key exists, append
otherwise. -/
def dictInsert {α : Type} (t : List (String × α)) (k : String) (v : α) :
    List (String × α) :=
  if t.any (fun kv => kv.1 == k) then
    t.map (fun kv => if kv.1 == k then (k, v) else kv)
  else t ++ [(k, v)]

/-- Python `del d[k]`: remove the key, or raise `KeyError` when it is
absent. -/
def dictDel {α : Type} (t : List (String × α)) (k : String) :
    Except String (List (String × α)) :=
  if t.any (fun kv => kv.1 == k) then
    Except.ok (t.filter (fun kv => kv.1 != k))
  else Except.error "KeyError"

/-- Python `d.get(k)`. -/
def dictLookup {α : Type} (t : List (String × α)) (k : String) : Option α :=
  (t.find? (fun kv => kv.1 == k)).map Prod.snd

/-- An inbound queue entry consumed by `process_messages`: a steady-state
payload, or the `remove` deletion sentinel the handler enqueues on
disconnect. -/
inductive NetMsg (α : Type)
| remove
| payload (p : α)
deriving DecidableEq, Repr

/-- The merge loop of `process_messages`: each queued one-key message is
applied to the shared table in order; a payload overwrites the sender
entry, and the deletion sentinel performs `del gamestate[uuid]`
unconditionally (so `KeyError` when the key is absent). -/
def mergeMsgs {α : Type} (t : List (String × α)) :
    List (String × NetMsg α) → Except String (List (String × α))
  | [] => Except.ok t
  | (u, NetMsg.remove) :: rest =>
      match dictDel t u with
      | Except.error e => Except.error e
      | Except.ok t2 => mergeMsgs t2 rest
  | (u, NetMsg.payload p) :: rest => mergeMsgs (dictInsert t u p) rest

/-- A `Server.clients` entry: whether the socket slot is still a live
connection (None after disconnect) and the stored clock offset. -/
structure ClientEntry where
  ws_open : Bool
  time_offset : ℚ
deriving DecidableEq, Repr

/-- The handshake in `Server.handler`: the clock offset is
`server_time - client_time` (missing time defaults to 0); a missing or
falsy identity rejects the connection and registers nothing, otherwise
the connection is stored under its identity. -/
def Server.handshake (clients : List (String × ClientEntry))
    (uuid : Option String) (client_time : Option ℚ) (server_time : ℚ) :
    Option (List (String × ClientEntry)) :=
  let offset := server_time - client_time.getD 0
  match uuid with
  | none => none
  | some u => if u = "" then none else some (dictInsert clients u ⟨true, offset⟩)

/-- `Server._send_message`: the payload sent to one client is the whole
merged table with the stored clock offset inserted under the
`offset` key (each send serializes immediately after its insertion). -/
def Server.sendMessage {α : Type} (message : List (String × α)) (offset : ℚ) :
    List (String × (α ⊕ ℚ)) :=
  dictInsert (message.map (fun kv => (kv.1, Sum.inl kv.2))) "offset" (Sum.inr offset)

/-- One period of `Server.broadcaster`: the message goes to every client
whose socket is still open. -/
def Server.broadcast {α : Type} (clients : List (String × ClientEntry))
    (message : List (String × α)) : List (String × List (String × (α ⊕ ℚ))) :=
  (clients.filter (fun c => c.2.ws_open)).map
    (fun c => (c.1, Server.sendMessage message c.2.time_offset))

/-! ## Concrete inputs for witnesses and counterexamples -/

/-- Identity in place of `Vector2.normalize`, for concrete scenarios
where the value of the normalized vector is irrelevant. -/
def unit0 : Vec2 → Vec2 := fun v => v

/-- Constant stand-in for `Vector2.length`, for concrete scenarios. -/
def len0 : Vec2 → ℚ := fun _ => 0

/-- An adversary with the given position and hit points (remaining
fields as constructed by `Enemy.__init__` with the 32x32 sprite). -/
def enemyAt (pos : ℤ × ℤ) (hp maxhp : ℤ) : Enemy :=
  { rect := Rect.mk pos.1 pos.2 32 32, velocity := Vec2.mk 0 0, max_velocity := 300,
    innertia_vector := Vec2.mk 0 0, innertia_scaler := 0, max_hp := maxhp,
    current_hp := hp, behaviour := none, has_been_onscreen := false, power := 1 }

/-- A player with the given position and hit points. -/
def playerAt (pos : ℤ × ℤ) (hp maxhp : ℤ) : Player :=
  { rect := Rect.mk pos.1 pos.2 32 32, velocity := Vec2.mk 0 0, max_velocity := 300,
    innertia_vector := Vec2.mk 0 0, innertia_scaler := 0, max_hp := maxhp,
    current_hp := hp, particles := [], alive := true }

/-- A concrete scene: the 1280x720 screen bounds, one full-health
adversary, an empty dead pool and a zeroed score table. -/
def scene1 : Scene :=
  { bounds := Rect.mk 0 0 1280 720, player := playerAt (600, 400) 10 10,
    enemies := [enemyAt (100, 100) 10 10], dead_sprites := [],
    score := fun _ => 0, myName := "Player" }

/-- The identity input handler: no keyboard or mouse input at all. -/
def handleId : Player → ℚ → Player := fun p _ => p

/-- A constant clock for iterated updates. -/
def times0 : ℕ → ℚ := fun _ => 0

/-- A player under a knockback of magnitude 1000 (max speed 300). -/
def playerC4 : Player :=
  { playerAt (600, 400) 10 10 with innertia_scaler := 1000 }

/-- The hit-point invariant a combat-resolution pass preserves: every
adversary still in the active set has positive hit points, and the player,
while alive, has positive hit points. -/
def Scene.hpInv (s : Scene) : Prop :=
  (∀ e ∈ s.enemies, 0 < e.current_hp) ∧ (s.player.alive = true → 0 < s.player.current_hp)

/-- A constant stand-in for the child-speed draws of an explosion (400
lies in the legal randint range [100, 1200] for speed 400). -/
def rndC8 : ℕ → ℚ := fun _ => 400

/-- A constant stand-in for the `from_polar` unit directions. -/
def dirC8 : ℕ → Vec2 := fun _ => Vec2.mk 1 0

/-- A triggered explosion child whose speed sits exactly on the
quarter-speed floor (100 = 400 / 4). -/
def childC8 : Particle :=
  { last_pos := (0, 0), rect := Rect.mk (-5) (-5) 10 10, velocity := Vec2.mk 100 0,
    color := colorRed, has_expired := false, spawn_time := 800, lifetime := 500 }

/-- A triggered explosion holding `childC8`, with the default wind-up,
lifetime, propagation speed and decay. -/
def explC8 : Explosion :=
  { last_pos := (0, 0), rect := Rect.mk (-100) (-100) 200 200, velocity := Vec2.mk 0 0,
    color := colorRed, has_expired := false, spawn_time := 0, lifetime := 1250,
    windup := 750, inner_scale := 0, radius := 100, sub_particles := [childC8],
    explosion_speed := 400, triggered := true, decay := 95 / 100 }

/-- `explC8` before generating any children. -/
def explC8e : Explosion := { explC8 with sub_particles := [], triggered := false }

/-- Two synchronized connections with stored clock offsets 5 and 7. -/
def clientsC2 : List (String × ClientEntry) :=
  [("a", ClientEntry.mk true 5), ("b", ClientEntry.mk true 7)]

/-- One steady-state message from each connection. -/
def msgsC2 : List (String × NetMsg String) :=
  [("a", NetMsg.payload "pa"), ("b", NetMsg.payload "pb")]

/-- The merged table after both messages. -/
def tableC2 : List (String × String) := [("a", "pa"), ("b", "pb")]

/-- An already-expired particle, for the C3 witness. -/
def pC3 : Particle :=
  { Particle.init (Rect.mk 0 0 10 10) (Vec2.mk 3 4) colorWhite 100 (some 0) 0 with
      has_expired := true }

/-- An already-expired explosion, for the C3 witness. -/
def eC3 : Explosion :=
  { Explosion.init (Rect.mk 0 0 10 10) (Vec2.mk 0 0) colorRed 1250 (some 0) 0 750 100 400 (95/100) with
      has_expired := true }

/-! ### Expired-flag monotonicity (helper lemmas) -/

theorem Particle.update_expired_mono (p : Particle) (dt now : ℚ)
    (h : p.has_expired = true) : (p.update dt now).has_expired = true := by
  unfold Particle.update
  split <;> simp_all

theorem Explosion.update_has_expired (e : Explosion) (dt now : ℚ)
    (rnd : ℕ → ℚ) (dir : ℕ → Vec2) :
    (e.update dt now rnd dir).has_expired = (e.particleFields.update dt now).has_expired := by
  simp only [Explosion.update, Explosion.withParticleFields]
  split
  · split <;> rfl
  · rfl

theorem Explosion.update_expired_stays (e : Explosion) (dt now : ℚ)
    (rnd : ℕ → ℚ) (dir : ℕ → Vec2)
    (h : e.has_expired = true) : (e.update dt now rnd dir).has_expired = true := by
  rw [Explosion.update_has_expired]
  exact Particle.update_expired_mono e.particleFields dt now h

theorem Particle.foldl_expired_mono (p : Particle) (ups : List (ℚ × ℚ))
    (h : p.has_expired = true) :
    (ups.foldl (fun q u => q.update u.1 u.2) p).has_expired = true := by
  induction ups generalizing p with
  | nil => simpa using h
  | cons u rest ih => exact ih _ (Particle.update_expired_mono p u.1 u.2 h)

theorem Explosion.foldl_expired_stays (e : Explosion)
    (ups : List (ℚ × ℚ × (ℕ → ℚ) × (ℕ → Vec2)))
    (h : e.has_expired = true) :
    (ups.foldl (fun q u => q.update u.1 u.2.1 u.2.2.1 u.2.2.2) e).has_expired = true := by
  induction ups generalizing e with
  | nil => simpa using h
  | cons u rest ih => exact ih _ (Explosion.update_expired_stays e u.1 u.2.1 u.2.2.1 u.2.2.2 h)

/-- C3: for every particle (plain or area-effect), once the `has_expired`
flag is true it remains true under every further sequence of `update`
calls, for any elapsed times, clock readings, and (for explosions) random
draws and directions. -/
theorem expired_flag_monotone (p : Particle) (e : Explosion)
    (ups : List (ℚ × ℚ)) (eups : List (ℚ × ℚ × (ℕ → ℚ) × (ℕ → Vec2)))
    (hp : p.has_expired = true) (he : e.has_expired = true) :
    (ups.foldl (fun q u => q.update u.1 u.2) p).has_expired = true ∧
    (eups.foldl (fun q u => q.update u.1 u.2.1 u.2.2.1 u.2.2.2) e).has_expired = true :=
  ⟨Particle.foldl_expired_mono p ups hp, Explosion.foldl_expired_stays e eups he⟩

/-- Closed instantiation of `expired_flag_monotone`: an expired particle
and an expired explosion stay expired across further updates. -/
theorem expired_flag_monotone_witness :
    pC3.has_expired = true ∧ eC3.has_expired = true ∧
    (([((1 : ℚ), (2 : ℚ)), (1, 3)].foldl (fun q u => q.update u.1 u.2) pC3).has_expired = true ∧
     ([((1 : ℚ), (2 : ℚ), (fun _ => (0 : ℚ)), fun _ => Vec2.mk 1 0)].foldl
        (fun q u => q.update u.1 u.2.1 u.2.2.1 u.2.2.2) eC3).has_expired = true) :=
  ⟨by decide, by decide,
    expired_flag_monotone pC3 eC3 [((1 : ℚ), (2 : ℚ)), (1, 3)]
      [((1 : ℚ), (2 : ℚ), (fun _ => (0 : ℚ)), fun _ => Vec2.mk 1 0)]
      (by decide) (by decide)⟩

/-! ### Serialization round trip -/

theorem Rect.center_setCenter (r : Rect) (c : ℤ × ℤ) : (r.setCenter c).center = c := by
  rcases r with ⟨x, y, w, h⟩
  rcases c with ⟨cx, cy⟩
  simp only [Rect.setCenter, Rect.center, Prod.mk.injEq]
  omega

/-- C6: serializing any particle (plain or area-effect) and
reconstructing one from the serialized fields, as `Gamestate.update_net`
does for received super-attack records, yields a particle with the same
position (rect center), velocity, color, lifetime and spawn time. -/
theorem serialize_reconstruct_roundtrip (p : Particle) (e : Explosion) (now1 now2 : ℚ) :
    (∃ q : Particle, Gamestate.reconstructSuper p.serialize now1 = some (Sum.inl q) ∧
      q.rect.center = p.rect.center ∧ q.velocity = p.velocity ∧ q.color = p.color ∧
      q.lifetime = p.lifetime ∧ q.spawn_time = p.spawn_time) ∧
    (∃ q : Explosion, Gamestate.reconstructSuper e.serialize now2 = some (Sum.inr q) ∧
      q.rect.center = e.rect.center ∧ q.velocity = e.velocity ∧ q.color = e.color ∧
      q.lifetime = e.lifetime ∧ q.spawn_time = e.spawn_time) := by
  constructor
  · have h1 : Gamestate.reconstructSuper p.serialize now1 =
        some (Sum.inl (Particle.init ((Rect.mk 0 0 10 10).setCenter p.rect.center)
          p.velocity p.color p.lifetime (some p.spawn_time) now1)) := by
      simp [Gamestate.reconstructSuper, Particle.serialize]
    exact ⟨_, h1, by simp [Particle.init, Rect.center_setCenter], rfl, rfl, rfl, rfl⟩
  · have h2 : Gamestate.reconstructSuper e.serialize now2 =
        some (Sum.inr (Explosion.init ((Rect.mk 0 0 10 10).setCenter e.rect.center)
          e.velocity e.color e.lifetime (some e.spawn_time) now2
          e.windup e.radius e.explosion_speed e.decay)) := by
      simp [Gamestate.reconstructSuper, Explosion.serialize]
    exact ⟨_, h2, by simp [Explosion.init, Particle.init, Rect.center_setCenter], rfl, rfl, rfl, rfl⟩

/-! ### Combat resolution and hit points -/

theorem Scene.damage_player_hpInv (unit : Vec2 → Vec2) (len : Vec2 → ℚ)
    (s : Scene) (power : ℤ) (cc : ℤ × ℤ) (h : s.hpInv) :
    (Scene.damage_player unit len s power cc).hpInv := by
  obtain ⟨he, _⟩ := h
  simp only [Scene.damage_player]
  split
  · exact ⟨he, by simp⟩
  · rename_i hgt
    refine ⟨he, ?_⟩
    intro _
    simp only [Player.gain_innertia]
    split <;> (try dsimp only) <;> omega

theorem Scene.check_attacks_hpInv (unit : Vec2 → Vec2) (len : Vec2 → ℚ)
    (s : Scene) (attackRect : Rect) (attack_pwr : ℤ) (targets : Targets)
    (h : s.hpInv) :
    (Scene.check_attacks unit len s attackRect attack_pwr targets).1.hpInv := by
  obtain ⟨he, hp⟩ := h
  cases targets with
  | enemies =>
      refine ⟨?_, hp⟩
      intro e hmem
      simp only [Scene.check_attacks, List.mem_filterMap] at hmem
      obtain ⟨a, ha, hfa⟩ := hmem
      rcases hcol : attackRect.collide a.rect with _ | _
      · rw [hcol] at hfa
        simp only [Bool.false_eq_true, if_false, Option.some.injEq] at hfa
        subst hfa
        exact he a ha
      · rw [hcol] at hfa
        simp only [if_true] at hfa
        split at hfa
        · exact absurd hfa (by simp)
        · rename_i hgt
          rw [Option.some.injEq] at hfa
          subst hfa
          dsimp only at hgt ⊢
          omega
  | playerOnly =>
      simp only [Scene.check_attacks]
      split
      · exact Scene.damage_player_hpInv unit len s attack_pwr attackRect.center ⟨he, hp⟩
      · exact ⟨he, hp⟩

/-- C1 counterexample: in `scene1` an adversary with 10 hit points is hit
by an attack of power 15; after the resolution pass its stored hit points
are -5 (moved to the dead pool unclamped), so hit points are not clamped
at the death transition. -/
theorem hp_clamp_counterexample :
    ((Scene.check_attacks unit0 len0 scene1 (Rect.mk 100 100 10 10) 15
        Targets.enemies).1.dead_sprites.map (fun e => e.current_hp)) = [-5] ∧
    ((-5 : ℤ) < 0) := by
  constructor
  · rfl
  · decide

/-- C1 (amended): a combat-resolution pass preserves the hit-point
invariant on the *active* set — every adversary still active and the
player while alive have positive hit points; an entity whose hit points
fall to zero or below is removed from the active set at the death
transition, but its stored hit-point field is left unclamped and may be
negative. -/
theorem combat_pass_hp (unit : Vec2 → Vec2) (len : Vec2 → ℚ) (s : Scene)
    (attackRect : Rect) (attack_pwr : ℤ) (targets : Targets)
    (power : ℤ) (cc : ℤ × ℤ) (h : s.hpInv) :
    (Scene.check_attacks unit len s attackRect attack_pwr targets).1.hpInv ∧
    (Scene.damage_player unit len s power cc).hpInv :=
  ⟨Scene.check_attacks_hpInv unit len s attackRect attack_pwr targets h,
   Scene.damage_player_hpInv unit len s power cc h⟩

/-- Closed instantiation of `combat_pass_hp` on `scene1`. -/
theorem combat_pass_hp_witness :
    scene1.hpInv ∧
    ((Scene.check_attacks unit0 len0 scene1 (Rect.mk 100 100 10 10) 15
        Targets.enemies).1.hpInv ∧
     (Scene.damage_player unit0 len0 scene1 1 (100, 100)).hpInv) :=
  have hw : scene1.hpInv := ⟨by decide, by decide⟩
  ⟨hw, combat_pass_hp unit0 len0 scene1 (Rect.mk 100 100 10 10) 15
    Targets.enemies 1 (100, 100) hw⟩

/-- C7: an adversary with 10 current hit points overlapped by an attack
of power 15 is removed from the active set into the dead pool (with its
hit points at -5) and the score of the local player is credited with the
maximum hit points of the adversary, 10; the attack itself is marked
expired. -/
theorem adversary_kill_credit (unit : Vec2 → Vec2) (len : Vec2 → ℚ)
    (s : Scene) (e : Enemy) (attackRect : Rect)
    (h1 : s.enemies = [e]) (h2 : e.current_hp = 10) (h3 : e.max_hp = 10)
    (h4 : attackRect.collide e.rect = true) :
    (Scene.check_attacks unit len s attackRect 15 Targets.enemies).1.enemies = [] ∧
    (Scene.check_attacks unit len s attackRect 15 Targets.enemies).1.dead_sprites
      = s.dead_sprites ++ [{ e with current_hp := -5 }] ∧
    (Scene.check_attacks unit len s attackRect 15 Targets.enemies).1.score s.myName
      = s.score s.myName + 10 ∧
    (Scene.check_attacks unit len s attackRect 15 Targets.enemies).2 = true := by
  simp only [Scene.check_attacks, h1, List.filter_cons, List.filterMap_cons, h4,
    List.filter_nil, List.filterMap_nil, if_true]
  have hhp : e.current_hp - 15 = -5 := by omega
  refine ⟨?_, ?_, ?_, ?_⟩
  · simp [hhp]
  · simp [hhp]
  · simp [hhp, h3]
  · simp

/-- Closed instantiation of `adversary_kill_credit` on `scene1`. -/
theorem adversary_kill_credit_witness :
    scene1.enemies = [enemyAt (100, 100) 10 10] ∧
    (enemyAt (100, 100) 10 10).current_hp = 10 ∧
    (enemyAt (100, 100) 10 10).max_hp = 10 ∧
    (Rect.mk 100 100 10 10).collide (enemyAt (100, 100) 10 10).rect = true ∧
    ((Scene.check_attacks unit0 len0 scene1 (Rect.mk 100 100 10 10) 15 Targets.enemies).1.enemies = [] ∧
     (Scene.check_attacks unit0 len0 scene1 (Rect.mk 100 100 10 10) 15 Targets.enemies).1.dead_sprites
       = scene1.dead_sprites ++ [{ enemyAt (100, 100) 10 10 with current_hp := -5 }] ∧
     (Scene.check_attacks unit0 len0 scene1 (Rect.mk 100 100 10 10) 15 Targets.enemies).1.score scene1.myName
       = scene1.score scene1.myName + 10 ∧
     (Scene.check_attacks unit0 len0 scene1 (Rect.mk 100 100 10 10) 15 Targets.enemies).2 = true) :=
  ⟨rfl, rfl, rfl, by decide,
   adversary_kill_credit unit0 len0 scene1 (enemyAt (100, 100) 10 10)
     (Rect.mk 100 100 10 10) rfl rfl rfl (by decide)⟩

/-! ### Knockback decay -/

theorem Player.update_scaler_pos (handle : Player → ℚ → Player) (q : Player)
    (bounds : Option Rect) (dt now : ℚ) (h : 0 < q.innertia_scaler) :
    (Player.update handle q bounds dt now).innertia_scaler
      = q.innertia_scaler - q.max_velocity * 8 * dt ∧
    (Player.update handle q bounds dt now).max_velocity = q.max_velocity := by
  simp only [Player.update, if_pos h]
  cases bounds with
  | none => exact ⟨rfl, rfl⟩
  | some b =>
      simp only [Player.bounds_check]
      split <;> exact ⟨rfl, rfl⟩

theorem Player.update_handleId_particles (q : Player) (dt now : ℚ)
    (hq : q.particles = []) :
    (Player.update handleId q none dt now).particles = [] := by
  simp only [Player.update, handleId]
  split <;> simp [hq]

theorem Player.update_handleId_nonpos (q : Player) (dt now : ℚ)
    (h : ¬ 0 < q.innertia_scaler) (hp : q.particles = []) :
    Player.update handleId q none dt now = q := by
  simp only [Player.update, if_neg h, handleId, hp, List.map_nil, List.filter_nil]
  rw [← hp]

theorem Player.iterate_scaler (handle : Player → ℚ → Player) (bounds : Option Rect)
    (dt : ℚ) (times : ℕ → ℚ) (p : Player) (m : ℕ)
    (hpos : ∀ j : ℕ, j < m → 0 < p.innertia_scaler - j * (8 * p.max_velocity * dt)) :
    (Player.iterate handle bounds dt times p m).innertia_scaler
      = p.innertia_scaler - m * (8 * p.max_velocity * dt) ∧
    (Player.iterate handle bounds dt times p m).max_velocity = p.max_velocity := by
  induction m with
  | zero => simp [Player.iterate]
  | succ n ih =>
      have hn := ih (fun j hj => hpos j (Nat.lt_succ_of_lt hj))
      have hsc : 0 < (Player.iterate handle bounds dt times p n).innertia_scaler := by
        rw [hn.1]
        exact hpos n (Nat.lt_succ_self n)
      obtain ⟨e1, e2⟩ := Player.update_scaler_pos handle
        (Player.iterate handle bounds dt times p n) bounds dt (times n) hsc
      have hstep : Player.iterate handle bounds dt times p (n + 1)
          = Player.update handle (Player.iterate handle bounds dt times p n) bounds dt (times n) := rfl
      constructor
      · rw [hstep, e1, hn.1, hn.2]
        push_cast
        ring
      · rw [hstep, e2, hn.2]

/-- C4 (amended): while the knockback magnitude is positive it decays
linearly, losing exactly `8 * max_velocity * dt` per tick (a rate
proportional to max speed); the deterministic tick count on which the
knockback ends is the ceiling of `s0 / (8 * max_velocity * dt)`, at which
point the stored magnitude is `s0 - N * 8 * max_velocity * dt ≤ 0` — in
general negative, not exactly zero; while the magnitude is positive the
update is independent of the input handler (voluntary movement is fully
suppressed). -/
theorem knockback_decay (handle : Player → ℚ → Player) (bounds : Option Rect)
    (dt : ℚ) (times : ℕ → ℚ) (p : Player) (s0 maxv : ℚ)
    (h1 : p.innertia_scaler = s0) (h2 : p.max_velocity = maxv)
    (h3 : 0 < s0) (h4 : 0 < dt) (h5 : 0 < maxv) :
    (∀ m : ℕ, m < (⌈s0 / (8 * maxv * dt)⌉).toNat →
        (Player.iterate handle bounds dt times p m).innertia_scaler
          = s0 - m * (8 * maxv * dt) ∧
        0 < (Player.iterate handle bounds dt times p m).innertia_scaler) ∧
    ((Player.iterate handle bounds dt times p (⌈s0 / (8 * maxv * dt)⌉).toNat).innertia_scaler
        = s0 - (⌈s0 / (8 * maxv * dt)⌉).toNat * (8 * maxv * dt) ∧
      (Player.iterate handle bounds dt times p (⌈s0 / (8 * maxv * dt)⌉).toNat).innertia_scaler ≤ 0) ∧
    (∀ handle2 : Player → ℚ → Player, ∀ q : Player, 0 < q.innertia_scaler →
      ∀ (b2 : Option Rect) (dt2 now2 : ℚ),
        Player.update handle q b2 dt2 now2 = Player.update handle2 q b2 dt2 now2) := by
  subst h1
  subst h2
  have hk : 0 < 8 * p.max_velocity * dt := by positivity
  have hlt : ∀ m : ℕ, m < (⌈p.innertia_scaler / (8 * p.max_velocity * dt)⌉).toNat →
      0 < p.innertia_scaler - m * (8 * p.max_velocity * dt) := by
    intro m hm
    have hmz : (m : ℤ) < ⌈p.innertia_scaler / (8 * p.max_velocity * dt)⌉ := Int.lt_toNat.mp hm
    have hmq : (m : ℚ) < p.innertia_scaler / (8 * p.max_velocity * dt) := by
      exact_mod_cast Int.lt_ceil.mp hmz
    have := (lt_div_iff₀ hk).mp hmq
    linarith
  refine ⟨?_, ⟨?_, ?_⟩, ?_⟩
  · intro m hm
    have hres := Player.iterate_scaler handle bounds dt times p m
      (fun j hj => hlt j (lt_trans hj hm))
    exact ⟨hres.1, by rw [hres.1]; exact hlt m hm⟩
  · exact (Player.iterate_scaler handle bounds dt times p _ (fun j hj => hlt j hj)).1
  · rw [(Player.iterate_scaler handle bounds dt times p _ (fun j hj => hlt j hj)).1]
    have hceil : p.innertia_scaler / (8 * p.max_velocity * dt)
        ≤ ((⌈p.innertia_scaler / (8 * p.max_velocity * dt)⌉).toNat : ℚ) := by
      have hz : (⌈p.innertia_scaler / (8 * p.max_velocity * dt)⌉ : ℚ)
          ≤ ((⌈p.innertia_scaler / (8 * p.max_velocity * dt)⌉).toNat : ℚ) := by
        exact_mod_cast Int.self_le_toNat _
      exact le_trans (Int.le_ceil _) hz
    have := (div_le_iff₀ hk).mp hceil
    linarith
  · intro handle2 q hq b2 dt2 now2
    simp only [Player.update, if_pos hq]

/-- Closed instantiation of `knockback_decay`: magnitude 1000, max speed
300, `dt = 1`, so the knockback ends on tick `⌈1000 / 2400⌉ = 1`. -/
theorem knockback_decay_witness :
    playerC4.innertia_scaler = 1000 ∧ playerC4.max_velocity = 300 ∧
    ((0 : ℚ) < 1000 ∧ (0 : ℚ) < 1 ∧ (0 : ℚ) < 300) ∧
    ((∀ m : ℕ, m < (⌈(1000 : ℚ) / (8 * 300 * 1)⌉).toNat →
        (Player.iterate handleId none 1 times0 playerC4 m).innertia_scaler
          = 1000 - m * (8 * 300 * 1) ∧
        0 < (Player.iterate handleId none 1 times0 playerC4 m).innertia_scaler) ∧
     ((Player.iterate handleId none 1 times0 playerC4 (⌈(1000 : ℚ) / (8 * 300 * 1)⌉).toNat).innertia_scaler
         = 1000 - (⌈(1000 : ℚ) / (8 * 300 * 1)⌉).toNat * (8 * 300 * 1) ∧
       (Player.iterate handleId none 1 times0 playerC4 (⌈(1000 : ℚ) / (8 * 300 * 1)⌉).toNat).innertia_scaler ≤ 0) ∧
     (∀ handle2 : Player → ℚ → Player, ∀ q : Player, 0 < q.innertia_scaler →
       ∀ (b2 : Option Rect) (dt2 now2 : ℚ),
         Player.update handleId q b2 dt2 now2 = Player.update handle2 q b2 dt2 now2)) :=
  ⟨rfl, rfl, ⟨by norm_num, by norm_num, by norm_num⟩,
   knockback_decay handleId none 1 times0 playerC4 1000 300 rfl rfl
     (by norm_num) (by norm_num) (by norm_num)⟩

/-- C4 counterexample: with magnitude 1000, max speed 300 and `dt = 1`
the stored knockback magnitude goes from 1000 directly to -1400 on the
tick that ends the knockback, and stays at -1400 on the following ticks
(with no input): it never equals zero, contradicting "decays to exactly
zero". -/
theorem knockback_zero_counterexample :
    (Player.iterate handleId none 1 times0 playerC4 0).innertia_scaler = 1000 ∧
    (Player.iterate handleId none 1 times0 playerC4 1).innertia_scaler = -1400 ∧
    (Player.iterate handleId none 1 times0 playerC4 2).innertia_scaler = -1400 ∧
    (Player.iterate handleId none 1 times0 playerC4 3).innertia_scaler = -1400 ∧
    ((-1400 : ℚ) ≠ 0 ∧ (1000 : ℚ) ≠ 0) := by
  have hpos : (0 : ℚ) < playerC4.innertia_scaler := by norm_num [playerC4, playerAt]
  have e1 := Player.update_scaler_pos handleId playerC4 none 1 (times0 0) hpos
  have h1s : (Player.iterate handleId none 1 times0 playerC4 1).innertia_scaler = -1400 := by
    have hit : Player.iterate handleId none 1 times0 playerC4 1
        = Player.update handleId playerC4 none 1 (times0 0) := rfl
    rw [hit, e1.1]
    norm_num [playerC4, playerAt]
  have hpart1 : (Player.iterate handleId none 1 times0 playerC4 1).particles = [] := by
    have hit : Player.iterate handleId none 1 times0 playerC4 1
        = Player.update handleId playerC4 none 1 (times0 0) := rfl
    rw [hit]
    exact Player.update_handleId_particles playerC4 1 (times0 0) rfl
  have h2 : Player.iterate handleId none 1 times0 playerC4 2
      = Player.iterate handleId none 1 times0 playerC4 1 := by
    have hit : Player.iterate handleId none 1 times0 playerC4 2
        = Player.update handleId (Player.iterate handleId none 1 times0 playerC4 1) none 1 (times0 1) := rfl
    rw [hit]
    exact Player.update_handleId_nonpos _ 1 (times0 1) (by rw [h1s]; norm_num) hpart1
  have h3 : Player.iterate handleId none 1 times0 playerC4 3
      = Player.iterate handleId none 1 times0 playerC4 2 := by
    have hit : Player.iterate handleId none 1 times0 playerC4 3
        = Player.update handleId (Player.iterate handleId none 1 times0 playerC4 2) none 1 (times0 2) := rfl
    rw [hit, h2]
    exact Player.update_handleId_nonpos _ 1 (times0 2) (by rw [h1s]; norm_num) hpart1
  exact ⟨rfl, h1s, by rw [h2]; exact h1s, by rw [h3, h2]; exact h1s, by norm_num, by norm_num⟩

/-! ### Spawn-pattern validation -/

/-- C5 counterexample: pygame truthiness lets a *zero* fixed target point
slip past the mutual-exclusion check, so constructing a pattern with both
a fixed target point (0, 0) and a target direction (1, 0) succeeds instead
of raising the validation error. -/
theorem pattern_both_set_counterexample :
    EnemyPattern.init 1 "any" none false 25 (some (Vec2.mk 0 0)) (some (Vec2.mk 1 0))
      = Except.ok
        { number_of_enemies := 1, enemy_behaviour := none, has_leader := false,
          distance := 25, spawn_type := "any", target := TargetVal.point (Vec2.mk 0 0),
          target_direction := some (Vec2.mk 1 0) } := by
  simp [EnemyPattern.init, optVecTruthy, Vec2.isTruthy]

/-- C5 (amended): construction fails with the validation error whenever
both the fixed target and the direction are *truthy* (non-`None` and, for
vectors, nonzero); with neither supplied it succeeds, and spawning an
adversary under the resulting pattern directs it to seek the controlled
entity (`move_towards` the player center). -/
theorem pattern_validation (n : ℤ) (st : String) (b : Option String) (hl : Bool)
    (dist : ℤ) (t d : Option Vec2)
    (ht : optVecTruthy t = true) (hd : optVecTruthy d = true) :
    (EnemyPattern.init n st b hl dist t d
        = Except.error "Cannot set both target and target_direction") ∧
    ∃ pat : EnemyPattern, EnemyPattern.init n st b hl dist none none = Except.ok pat ∧
      ∀ (unit : Vec2 → Vec2) (s : Scene) (e : Enemy),
        Scene.spawn_target unit s e pat
          = Enemy.move_towards unit e (Vec2.ofPair s.player.rect.center) := by
  constructor
  · simp [EnemyPattern.init, ht, hd]
  · refine ⟨_, rfl, ?_⟩
    intro unit s e
    simp [Scene.spawn_target, EnemyPattern.init, optVecTruthy]

/-- Closed instantiation of `pattern_validation` with the truthy pair
(1, 1) and (1, 0). -/
theorem pattern_validation_witness :
    optVecTruthy (some (Vec2.mk 1 1)) = true ∧ optVecTruthy (some (Vec2.mk 1 0)) = true ∧
    ((EnemyPattern.init 2 "left" none false 25 (some (Vec2.mk 1 1)) (some (Vec2.mk 1 0))
        = Except.error "Cannot set both target and target_direction") ∧
     ∃ pat : EnemyPattern, EnemyPattern.init 2 "left" none false 25 none none = Except.ok pat ∧
       ∀ (unit : Vec2 → Vec2) (s : Scene) (e : Enemy),
         Scene.spawn_target unit s e pat
           = Enemy.move_towards unit e (Vec2.ofPair s.player.rect.center)) :=
  have h1 : optVecTruthy (some (Vec2.mk 1 1)) = true := by
    simp [optVecTruthy, Vec2.isTruthy]
  have h2 : optVecTruthy (some (Vec2.mk 1 0)) = true := by
    simp [optVecTruthy, Vec2.isTruthy]
  ⟨h1, h2, pattern_validation 2 "left" none false 25 (some (Vec2.mk 1 1))
    (some (Vec2.mk 1 0)) h1 h2⟩

/-! ### Spawn placement outside the bounds -/

/-- C9 counterexample: the left-edge spawn with the minimal draw 50 can
land exactly on the boundary of the bounds expanded by the margin 50:
the point (-50, 0) produced by legal draws (o1 = 50, o2 = 60, cross = 0)
lies *inside* the expanded rectangle under the pygame rect-membership
rule, so the spawn point is not strictly outside it. -/
theorem spawn_margin_counterexample :
    scene1.spawn_outside "left" 50 60 0 = (-50, 0) ∧
    (expandedRect scene1.bounds 50).collidepoint (-50, 0) = true ∧
    ((50 : ℤ) ≤ 50 ∧ (50 : ℤ) ≤ 100 ∧ (50 : ℤ) ≤ 60 ∧ (60 : ℤ) ≤ 100 ∧
      (-100 : ℤ) ≤ 0 ∧ (0 : ℤ) ≤ 720 + 100) := by
  refine ⟨rfl, by decide, by decide⟩

/-- C9 (amended): for every edge, a spawn-outside draw yields a point
strictly outside the playable bounds expanded by any margin *smaller*
than 50 (the minimum spawn offset): it clears the bounds by at least 50,
but may lie exactly on the 50-expanded boundary.  The bounds rect is the
screen rect rooted at the origin, which the source assumes by using only
its width and height. -/
theorem spawn_outside_margin (s : Scene) (direction : String) (o1 o2 cross m : ℤ)
    (hx : s.bounds.x = 0) (hy : s.bounds.y = 0)
    (hw : 0 ≤ s.bounds.w) (hh : 0 ≤ s.bounds.h)
    (hdir : direction = "top" ∨ direction = "left" ∨ direction = "right" ∨
      direction = "bottom")
    (h1 : 50 ≤ o1) (h2 : o1 ≤ 100) (h3 : 50 ≤ o2) (h4 : o2 ≤ 100)
    (hm0 : 0 ≤ m) (hm : m < 50) :
    (expandedRect s.bounds m).collidepoint (s.spawn_outside direction o1 o2 cross)
      = false := by
  rcases hdir with h | h | h | h <;> subst h <;>
    simp only [Scene.spawn_outside, expandedRect, Rect.collidepoint,
      String.reduceEq, reduceIte, if_true, if_false, Bool.and_eq_false_iff,
      decide_eq_false_iff_not, not_lt, not_le] <;>
    omega

/-- Closed instantiation of `spawn_outside_margin`: the top edge with
draws (50, 60, 300) and margin 49. -/
theorem spawn_outside_margin_witness :
    (scene1.bounds.x = 0 ∧ scene1.bounds.y = 0 ∧
      0 ≤ scene1.bounds.w ∧ 0 ≤ scene1.bounds.h ∧
      ("top" = "top" ∨ ("top" : String) = "left" ∨ ("top" : String) = "right" ∨
        ("top" : String) = "bottom") ∧
      (50 : ℤ) ≤ 50 ∧ (50 : ℤ) ≤ 100 ∧ (50 : ℤ) ≤ 60 ∧ (60 : ℤ) ≤ 100 ∧
      (0 : ℤ) ≤ 49 ∧ (49 : ℤ) < 50) ∧
    (expandedRect scene1.bounds 49).collidepoint
      (scene1.spawn_outside "top" 50 60 300) = false :=
  ⟨⟨rfl, rfl, by decide, by decide, Or.inl rfl, by decide, by decide, by decide,
    by decide, by decide, by decide⟩,
   spawn_outside_margin scene1 "top" 50 60 300 49 rfl rfl (by decide) (by decide)
     (Or.inl rfl) (by decide) (by decide) (by decide) (by decide) (by decide)
     (by decide)⟩

/-! ### Explosion trigger, child generation and decay -/

theorem Particle.update_spawn_time (p : Particle) (dt now : ℚ) :
    (p.update dt now).spawn_time = p.spawn_time := by
  unfold Particle.update
  split <;> rfl

theorem Particle.update_lifetime (p : Particle) (dt now : ℚ) :
    (p.update dt now).lifetime = p.lifetime := by
  unfold Particle.update
  split <;> rfl

theorem Particle.update_velocity (p : Particle) (dt now : ℚ) :
    (p.update dt now).velocity = p.velocity := by
  unfold Particle.update
  split <;> rfl

theorem Explosion.stepChild_fresh_not_expired (e : Explosion) (dt now lt : ℚ)
    (v : Vec2) (r : Rect) (h : 0 ≤ lt) :
    (Explosion.stepChild e dt now (Particle.init r v colorRed lt none now)).has_expired
      = false := by
  have hq : ∀ q : Particle, q.spawn_time = now → q.lifetime = lt →
      q.has_expired = false → (q.update dt now).has_expired = false := by
    intro q h1 h2 h3
    unfold Particle.update
    rw [if_neg (by rw [h1, h2]; linarith)]
    simpa using h3
  unfold Explosion.stepChild
  split
  · exact hq _ rfl rfl rfl
  · exact hq _ rfl rfl rfl

/-- C8 counterexample: a triggered explosion (base propagation speed 400)
with a surviving child whose speed is exactly the quarter-speed floor
100 = 400 / 4: on the next update the child velocity is *not* multiplied
by the decay factor — it stays (100, 0), while decay would give (95, 0).
So "every subsequent tick each child particle speed is multiplied by
the decay factor" fails at the floor. -/
theorem explosion_decay_floor_counterexample :
    ((explC8.update 1 900 rndC8 dirC8).sub_particles.map (fun p => p.velocity))
      = [Vec2.mk 100 0] ∧
    Vec2.scale (95 / 100) (Vec2.mk 100 0) ≠ Vec2.mk 100 0 := by
  constructor
  · norm_num [Explosion.update, Explosion.withParticleFields, Explosion.particleFields,
      Particle.update, Explosion.stepChild, Explosion.genChildren, Vec2.magSq, Vec2.scale,
      explC8, childC8, rndC8, dirC8, Rect.moveTrunc, truncZ]
  · simp only [Vec2.scale, Vec2.mk.injEq, not_and]
    intro hx
    norm_num at hx

/-- C8 (amended): past the wind-up, on the first tick with an empty child
list the update generates exactly 360 children, one per whole degree `x`
in 0..359, each with velocity `from_polar((rnd x, x))` where `rnd x` is
the `randint` draw from `[explosion_speed / 4, explosion_speed * 3]`; the
decay-and-integrate step runs on the generation tick as well.  On ticks
with a nonempty child list every child is stepped and expired children
are pruned.  The per-child step multiplies the velocity by the decay
factor *only while* its magnitude exceeds a quarter of the propagation
speed (children at or below the floor keep their speed), and then
integrates the child position. -/
theorem explosion_update_children (e : Explosion) (dt now : ℚ)
    (rnd : ℕ → ℚ) (dir : ℕ → Vec2) (e2 : Explosion)
    (he2 : e2 = e.withParticleFields (e.particleFields.update dt now)) :
    (e.spawn_time + e.windup < now → e.sub_particles = [] → 0 ≤ e.lifetime - e.windup →
      (e.update dt now rnd dir).sub_particles
        = (List.range 360).map (fun x => Explosion.stepChild e dt now
            (Particle.init e2.rect (Vec2.scale (rnd x) (dir x)) colorRed
              (e.lifetime - e.windup) none now)) ∧
      (e.update dt now rnd dir).sub_particles.length = 360) ∧
    (e.spawn_time + e.windup < now → e.sub_particles ≠ [] →
      (e.update dt now rnd dir).sub_particles
        = (e.sub_particles.map (Explosion.stepChild e dt now)).filter
            (fun p => !p.has_expired)) ∧
    (∀ p : Particle,
      (p.velocity.magSq ≤ (e.explosion_speed / 4) * (e.explosion_speed / 4) →
        (Explosion.stepChild e dt now p).velocity = p.velocity) ∧
      ((e.explosion_speed / 4) * (e.explosion_speed / 4) < p.velocity.magSq →
        (Explosion.stepChild e dt now p).velocity = Vec2.scale e.decay p.velocity)) := by
  subst he2
  refine ⟨?_, ?_, ?_⟩
  · intro h1 h2 h3
    have hmain : (e.update dt now rnd dir).sub_particles
        = (List.range 360).map (fun x => Explosion.stepChild e dt now
            (Particle.init (e.withParticleFields (e.particleFields.update dt now)).rect
              (Vec2.scale (rnd x) (dir x)) colorRed (e.lifetime - e.windup) none now)) := by
      simp only [Explosion.update, Explosion.withParticleFields, Explosion.particleFields,
        Explosion.genChildren, Particle.update_spawn_time, Particle.update_lifetime, h1, h2,
        if_true, List.map_map]
      rw [List.filter_eq_self.mpr]
      · rfl
      · intro a ha
        simp only [List.mem_map, List.mem_range] at ha
        obtain ⟨x, _, hax⟩ := ha
        rw [← hax]
        simp only [Function.comp]
        rw [Explosion.stepChild_fresh_not_expired _ _ _ _ _ _ h3]
        rfl
    exact ⟨hmain, by rw [hmain]; simp⟩
  · intro h1 h2
    simp only [Explosion.update, Explosion.withParticleFields, Explosion.particleFields,
      Particle.update_spawn_time, Particle.update_lifetime, h1, h2, if_true, if_false]
    rfl
  · intro p
    constructor
    · intro hle
      unfold Explosion.stepChild
      rw [if_neg (not_lt.mpr hle)]
      exact Particle.update_velocity p dt now
    · intro hgt
      unfold Explosion.stepChild
      rw [if_pos hgt]
      exact Particle.update_velocity _ dt now

/-- Closed instantiation of `explosion_update_children`: the triggered
explosion with no children yet generates exactly 360 children. -/
theorem explosion_update_children_witness :
    (explC8e.spawn_time + explC8e.windup < 900 ∧ explC8e.sub_particles = [] ∧
      (0 : ℚ) ≤ explC8e.lifetime - explC8e.windup) ∧
    (explC8e.update 1 900 rndC8 dirC8).sub_particles.length = 360 :=
  have h1 : explC8e.spawn_time + explC8e.windup < 900 := by
    norm_num [explC8e, explC8]
  have h3 : (0 : ℚ) ≤ explC8e.lifetime - explC8e.windup := by
    norm_num [explC8e, explC8]
  ⟨⟨h1, rfl, h3⟩,
    ((explosion_update_children explC8e 1 900 rndC8 dirC8 _ rfl).1 h1 rfl h3).2⟩

/-! ### Server merge and broadcast -/

/-- C2 evaluation: after connections with identities a (offset 5) and b
(offset 7) each merge one steady-state message, the broadcast payload for
a contains key b and the stored clock offset of a under the offset key —
but it also contains the own identity key of a: `_send_message` sends the
whole merged table and, contrary to its docstring, never removes the
recipient entry (the client filters its own key locally).  The final
conjunct shows the handshake storing `server_time - client_time`. -/
theorem broadcast_contains_own_key :
    mergeMsgs [] msgsC2 = Except.ok tableC2 ∧
    dictLookup (Server.broadcast clientsC2 tableC2) "a"
      = some (Server.sendMessage tableC2 5) ∧
    dictLookup (Server.sendMessage tableC2 5) "b" = some (Sum.inl "pb") ∧
    dictLookup (Server.sendMessage tableC2 5) "offset" = some (Sum.inr 5) ∧
    dictLookup (Server.sendMessage tableC2 5) "a" = some (Sum.inl "pa") ∧
    Server.handshake [] (some "a") (some 2) 7
      = some [("a", ClientEntry.mk true (7 - 2))] :=
  ⟨rfl, rfl, rfl, rfl, rfl, rfl⟩

/-- C10: merging a deletion sentinel for identity `u` removes the key
when present and raises `KeyError` when absent — the `del` is performed
without a presence check, and the key is absent exactly when no
steady-state message of `u` was merged since the table last dropped it
(for instance a disconnect straight after the handshake). -/
theorem delete_sentinel_unconditional {α : Type} (t : List (String × α))
    (u : String) (p : α) :
    (dictLookup t u = none →
      mergeMsgs t [(u, NetMsg.remove)] = Except.error "KeyError") ∧
    (dictLookup t u = some p →
      mergeMsgs t [(u, NetMsg.remove)]
        = Except.ok (t.filter (fun kv => kv.1 != u))) := by
  constructor
  · intro h
    have hfind : t.find? (fun kv => kv.1 == u) = none := by
      simp only [dictLookup, Option.map_eq_none'] at h
      exact h
    have hany : t.any (fun kv => kv.1 == u) = false := by
      rw [List.any_eq_false]
      intro kv hkv
      have := List.find?_eq_none.mp hfind kv hkv
      simpa using this
    simp [mergeMsgs, dictDel, hany]
  · intro h
    have hfind : ∃ kv, t.find? (fun kv => kv.1 == u) = some kv := by
      simp only [dictLookup] at h
      rcases hv : t.find? (fun kv => kv.1 == u) with _ | kv
      · rw [hv] at h
        exact absurd h (by simp)
      · exact ⟨kv, hv⟩
    obtain ⟨kv, hkv⟩ := hfind
    have hmem := List.mem_of_find?_eq_some hkv
    have hpred := List.find?_some hkv
    have hany : t.any (fun kv => kv.1 == u) = true := by
      rw [List.any_eq_true]
      exact ⟨kv, hmem, hpred⟩
    simp [mergeMsgs, dictDel, hany]

/-- Closed instantiation of `delete_sentinel_unconditional`: deleting
identity a from the empty table raises `KeyError`; deleting it from a
table holding it removes the entry. -/
theorem delete_sentinel_witness :
    dictLookup ([] : List (String × String)) "a" = none ∧
    dictLookup [("a", "pa")] "a" = some "pa" ∧
    mergeMsgs ([] : List (String × String)) [("a", NetMsg.remove)]
      = Except.error "KeyError" ∧
    mergeMsgs [("a", "pa")] [("a", NetMsg.remove)]
      = Except.ok ([("a", "pa")].filter (fun kv => kv.1 != "a")) :=
  ⟨rfl, rfl,
    (@delete_sentinel_unconditional String [] "a" "pa").1 rfl,
    (@delete_sentinel_unconditional String [("a", "pa")] "a" "pa").2 rfl⟩

end Game
